import Mathlib

/-!
Verification of the geometry layer (src/src/board/positions.rs) and the
player-record wrapper (src/src/lib.rs) of the SUDOKU repository.

Cells are indices 0-80, houses 0-26 (rows 0-8, columns 9-17, blocks 18-26),
minilines 0-53 (minirows 0-26, minicols 27-53).  Sets of cells are embedded
as 81-bit natural-number masks, exactly as the Rust `Set<Cell>` wraps a
`u128` bitmask.
-/

set_option maxRecDepth 100000
set_option maxHeartbeats 4000000

namespace SudokuGeom

/-- The BLOCK lookup table from positions.rs: block index of each of the 81 cells. -/
def BLOCK : List Nat := [0, 0, 0, 1, 1, 1, 2, 2, 2, 0, 0, 0, 1, 1, 1, 2, 2, 2, 0, 0, 0, 1, 1, 1, 2, 2, 2, 3, 3, 3, 4, 4, 4, 5, 5, 5, 3, 3, 3, 4, 4, 4, 5, 5, 5, 3, 3, 3, 4, 4, 4, 5, 5, 5, 6, 6, 6, 7, 7, 7, 8, 8, 8, 6, 6, 6, 7, 7, 7, 8, 8, 8, 6, 6, 6, 7, 7, 7, 8, 8, 8]

/-- The CELLS_BY_HOUSE table from positions.rs: the 9 cells of each of the 27 houses (9 rows, then 9 columns, then 9 blocks). -/
def CELLS_BY_HOUSE : List (List Nat) := [
  [0, 1, 2, 3, 4, 5, 6, 7, 8],
  [9, 10, 11, 12, 13, 14, 15, 16, 17],
  [18, 19, 20, 21, 22, 23, 24, 25, 26],
  [27, 28, 29, 30, 31, 32, 33, 34, 35],
  [36, 37, 38, 39, 40, 41, 42, 43, 44],
  [45, 46, 47, 48, 49, 50, 51, 52, 53],
  [54, 55, 56, 57, 58, 59, 60, 61, 62],
  [63, 64, 65, 66, 67, 68, 69, 70, 71],
  [72, 73, 74, 75, 76, 77, 78, 79, 80],
  [0, 9, 18, 27, 36, 45, 54, 63, 72],
  [1, 10, 19, 28, 37, 46, 55, 64, 73],
  [2, 11, 20, 29, 38, 47, 56, 65, 74],
  [3, 12, 21, 30, 39, 48, 57, 66, 75],
  [4, 13, 22, 31, 40, 49, 58, 67, 76],
  [5, 14, 23, 32, 41, 50, 59, 68, 77],
  [6, 15, 24, 33, 42, 51, 60, 69, 78],
  [7, 16, 25, 34, 43, 52, 61, 70, 79],
  [8, 17, 26, 35, 44, 53, 62, 71, 80],
  [0, 1, 2, 9, 10, 11, 18, 19, 20],
  [3, 4, 5, 12, 13, 14, 21, 22, 23],
  [6, 7, 8, 15, 16, 17, 24, 25, 26],
  [27, 28, 29, 36, 37, 38, 45, 46, 47],
  [30, 31, 32, 39, 40, 41, 48, 49, 50],
  [33, 34, 35, 42, 43, 44, 51, 52, 53],
  [54, 55, 56, 63, 64, 65, 72, 73, 74],
  [57, 58, 59, 66, 67, 68, 75, 76, 77],
  [60, 61, 62, 69, 70, 71, 78, 79, 80]]

/-- The HOUSE_NEIGHBORS_OF_CELL table from positions.rs: for each cell, the 20 cells sharing a row, column or block with it, sorted ascending. -/
def HOUSE_NEIGHBORS_OF_CELL : List (List Nat) := [
  [1, 2, 3, 4, 5, 6, 7, 8, 9, 10, 11, 18, 19, 20, 27, 36, 45, 54, 63, 72],
  [0, 2, 3, 4, 5, 6, 7, 8, 9, 10, 11, 18, 19, 20, 28, 37, 46, 55, 64, 73],
  [0, 1, 3, 4, 5, 6, 7, 8, 9, 10, 11, 18, 19, 20, 29, 38, 47, 56, 65, 74],
  [0, 1, 2, 4, 5, 6, 7, 8, 12, 13, 14, 21, 22, 23, 30, 39, 48, 57, 66, 75],
  [0, 1, 2, 3, 5, 6, 7, 8, 12, 13, 14, 21, 22, 23, 31, 40, 49, 58, 67, 76],
  [0, 1, 2, 3, 4, 6, 7, 8, 12, 13, 14, 21, 22, 23, 32, 41, 50, 59, 68, 77],
  [0, 1, 2, 3, 4, 5, 7, 8, 15, 16, 17, 24, 25, 26, 33, 42, 51, 60, 69, 78],
  [0, 1, 2, 3, 4, 5, 6, 8, 15, 16, 17, 24, 25, 26, 34, 43, 52, 61, 70, 79],
  [0, 1, 2, 3, 4, 5, 6, 7, 15, 16, 17, 24, 25, 26, 35, 44, 53, 62, 71, 80],
  [0, 1, 2, 10, 11, 12, 13, 14, 15, 16, 17, 18, 19, 20, 27, 36, 45, 54, 63, 72],
  [0, 1, 2, 9, 11, 12, 13, 14, 15, 16, 17, 18, 19, 20, 28, 37, 46, 55, 64, 73],
  [0, 1, 2, 9, 10, 12, 13, 14, 15, 16, 17, 18, 19, 20, 29, 38, 47, 56, 65, 74],
  [3, 4, 5, 9, 10, 11, 13, 14, 15, 16, 17, 21, 22, 23, 30, 39, 48, 57, 66, 75],
  [3, 4, 5, 9, 10, 11, 12, 14, 15, 16, 17, 21, 22, 23, 31, 40, 49, 58, 67, 76],
  [3, 4, 5, 9, 10, 11, 12, 13, 15, 16, 17, 21, 22, 23, 32, 41, 50, 59, 68, 77],
  [6, 7, 8, 9, 10, 11, 12, 13, 14, 16, 17, 24, 25, 26, 33, 42, 51, 60, 69, 78],
  [6, 7, 8, 9, 10, 11, 12, 13, 14, 15, 17, 24, 25, 26, 34, 43, 52, 61, 70, 79],
  [6, 7, 8, 9, 10, 11, 12, 13, 14, 15, 16, 24, 25, 26, 35, 44, 53, 62, 71, 80],
  [0, 1, 2, 9, 10, 11, 19, 20, 21, 22, 23, 24, 25, 26, 27, 36, 45, 54, 63, 72],
  [0, 1, 2, 9, 10, 11, 18, 20, 21, 22, 23, 24, 25, 26, 28, 37, 46, 55, 64, 73],
  [0, 1, 2, 9, 10, 11, 18, 19, 21, 22, 23, 24, 25, 26, 29, 38, 47, 56, 65, 74],
  [3, 4, 5, 12, 13, 14, 18, 19, 20, 22, 23, 24, 25, 26, 30, 39, 48, 57, 66, 75],
  [3, 4, 5, 12, 13, 14, 18, 19, 20, 21, 23, 24, 25, 26, 31, 40, 49, 58, 67, 76],
  [3, 4, 5, 12, 13, 14, 18, 19, 20, 21, 22, 24, 25, 26, 32, 41, 50, 59, 68, 77],
  [6, 7, 8, 15, 16, 17, 18, 19, 20, 21, 22, 23, 25, 26, 33, 42, 51, 60, 69, 78],
  [6, 7, 8, 15, 16, 17, 18, 19, 20, 21, 22, 23, 24, 26, 34, 43, 52, 61, 70, 79],
  [6, 7, 8, 15, 16, 17, 18, 19, 20, 21, 22, 23, 24, 25, 35, 44, 53, 62, 71, 80],
  [0, 9, 18, 28, 29, 30, 31, 32, 33, 34, 35, 36, 37, 38, 45, 46, 47, 54, 63, 72],
  [1, 10, 19, 27, 29, 30, 31, 32, 33, 34, 35, 36, 37, 38, 45, 46, 47, 55, 64, 73],
  [2, 11, 20, 27, 28, 30, 31, 32, 33, 34, 35, 36, 37, 38, 45, 46, 47, 56, 65, 74],
  [3, 12, 21, 27, 28, 29, 31, 32, 33, 34, 35, 39, 40, 41, 48, 49, 50, 57, 66, 75],
  [4, 13, 22, 27, 28, 29, 30, 32, 33, 34, 35, 39, 40, 41, 48, 49, 50, 58, 67, 76],
  [5, 14, 23, 27, 28, 29, 30, 31, 33, 34, 35, 39, 40, 41, 48, 49, 50, 59, 68, 77],
  [6, 15, 24, 27, 28, 29, 30, 31, 32, 34, 35, 42, 43, 44, 51, 52, 53, 60, 69, 78],
  [7, 16, 25, 27, 28, 29, 30, 31, 32, 33, 35, 42, 43, 44, 51, 52, 53, 61, 70, 79],
  [8, 17, 26, 27, 28, 29, 30, 31, 32, 33, 34, 42, 43, 44, 51, 52, 53, 62, 71, 80],
  [0, 9, 18, 27, 28, 29, 37, 38, 39, 40, 41, 42, 43, 44, 45, 46, 47, 54, 63, 72],
  [1, 10, 19, 27, 28, 29, 36, 38, 39, 40, 41, 42, 43, 44, 45, 46, 47, 55, 64, 73],
  [2, 11, 20, 27, 28, 29, 36, 37, 39, 40, 41, 42, 43, 44, 45, 46, 47, 56, 65, 74],
  [3, 12, 21, 30, 31, 32, 36, 37, 38, 40, 41, 42, 43, 44, 48, 49, 50, 57, 66, 75],
  [4, 13, 22, 30, 31, 32, 36, 37, 38, 39, 41, 42, 43, 44, 48, 49, 50, 58, 67, 76],
  [5, 14, 23, 30, 31, 32, 36, 37, 38, 39, 40, 42, 43, 44, 48, 49, 50, 59, 68, 77],
  [6, 15, 24, 33, 34, 35, 36, 37, 38, 39, 40, 41, 43, 44, 51, 52, 53, 60, 69, 78],
  [7, 16, 25, 33, 34, 35, 36, 37, 38, 39, 40, 41, 42, 44, 51, 52, 53, 61, 70, 79],
  [8, 17, 26, 33, 34, 35, 36, 37, 38, 39, 40, 41, 42, 43, 51, 52, 53, 62, 71, 80],
  [0, 9, 18, 27, 28, 29, 36, 37, 38, 46, 47, 48, 49, 50, 51, 52, 53, 54, 63, 72],
  [1, 10, 19, 27, 28, 29, 36, 37, 38, 45, 47, 48, 49, 50, 51, 52, 53, 55, 64, 73],
  [2, 11, 20, 27, 28, 29, 36, 37, 38, 45, 46, 48, 49, 50, 51, 52, 53, 56, 65, 74],
  [3, 12, 21, 30, 31, 32, 39, 40, 41, 45, 46, 47, 49, 50, 51, 52, 53, 57, 66, 75],
  [4, 13, 22, 30, 31, 32, 39, 40, 41, 45, 46, 47, 48, 50, 51, 52, 53, 58, 67, 76],
  [5, 14, 23, 30, 31, 32, 39, 40, 41, 45, 46, 47, 48, 49, 51, 52, 53, 59, 68, 77],
  [6, 15, 24, 33, 34, 35, 42, 43, 44, 45, 46, 47, 48, 49, 50, 52, 53, 60, 69, 78],
  [7, 16, 25, 33, 34, 35, 42, 43, 44, 45, 46, 47, 48, 49, 50, 51, 53, 61, 70, 79],
  [8, 17, 26, 33, 34, 35, 42, 43, 44, 45, 46, 47, 48, 49, 50, 51, 52, 62, 71, 80],
  [0, 9, 18, 27, 36, 45, 55, 56, 57, 58, 59, 60, 61, 62, 63, 64, 65, 72, 73, 74],
  [1, 10, 19, 28, 37, 46, 54, 56, 57, 58, 59, 60, 61, 62, 63, 64, 65, 72, 73, 74],
  [2, 11, 20, 29, 38, 47, 54, 55, 57, 58, 59, 60, 61, 62, 63, 64, 65, 72, 73, 74],
  [3, 12, 21, 30, 39, 48, 54, 55, 56, 58, 59, 60, 61, 62, 66, 67, 68, 75, 76, 77],
  [4, 13, 22, 31, 40, 49, 54, 55, 56, 57, 59, 60, 61, 62, 66, 67, 68, 75, 76, 77],
  [5, 14, 23, 32, 41, 50, 54, 55, 56, 57, 58, 60, 61, 62, 66, 67, 68, 75, 76, 77],
  [6, 15, 24, 33, 42, 51, 54, 55, 56, 57, 58, 59, 61, 62, 69, 70, 71, 78, 79, 80],
  [7, 16, 25, 34, 43, 52, 54, 55, 56, 57, 58, 59, 60, 62, 69, 70, 71, 78, 79, 80],
  [8, 17, 26, 35, 44, 53, 54, 55, 56, 57, 58, 59, 60, 61, 69, 70, 71, 78, 79, 80],
  [0, 9, 18, 27, 36, 45, 54, 55, 56, 64, 65, 66, 67, 68, 69, 70, 71, 72, 73, 74],
  [1, 10, 19, 28, 37, 46, 54, 55, 56, 63, 65, 66, 67, 68, 69, 70, 71, 72, 73, 74],
  [2, 11, 20, 29, 38, 47, 54, 55, 56, 63, 64, 66, 67, 68, 69, 70, 71, 72, 73, 74],
  [3, 12, 21, 30, 39, 48, 57, 58, 59, 63, 64, 65, 67, 68, 69, 70, 71, 75, 76, 77],
  [4, 13, 22, 31, 40, 49, 57, 58, 59, 63, 64, 65, 66, 68, 69, 70, 71, 75, 76, 77],
  [5, 14, 23, 32, 41, 50, 57, 58, 59, 63, 64, 65, 66, 67, 69, 70, 71, 75, 76, 77],
  [6, 15, 24, 33, 42, 51, 60, 61, 62, 63, 64, 65, 66, 67, 68, 70, 71, 78, 79, 80],
  [7, 16, 25, 34, 43, 52, 60, 61, 62, 63, 64, 65, 66, 67, 68, 69, 71, 78, 79, 80],
  [8, 17, 26, 35, 44, 53, 60, 61, 62, 63, 64, 65, 66, 67, 68, 69, 70, 78, 79, 80],
  [0, 9, 18, 27, 36, 45, 54, 55, 56, 63, 64, 65, 73, 74, 75, 76, 77, 78, 79, 80],
  [1, 10, 19, 28, 37, 46, 54, 55, 56, 63, 64, 65, 72, 74, 75, 76, 77, 78, 79, 80],
  [2, 11, 20, 29, 38, 47, 54, 55, 56, 63, 64, 65, 72, 73, 75, 76, 77, 78, 79, 80],
  [3, 12, 21, 30, 39, 48, 57, 58, 59, 66, 67, 68, 72, 73, 74, 76, 77, 78, 79, 80],
  [4, 13, 22, 31, 40, 49, 57, 58, 59, 66, 67, 68, 72, 73, 74, 75, 77, 78, 79, 80],
  [5, 14, 23, 32, 41, 50, 57, 58, 59, 66, 67, 68, 72, 73, 74, 75, 76, 78, 79, 80],
  [6, 15, 24, 33, 42, 51, 60, 61, 62, 69, 70, 71, 72, 73, 74, 75, 76, 77, 79, 80],
  [7, 16, 25, 34, 43, 52, 60, 61, 62, 69, 70, 71, 72, 73, 74, 75, 76, 77, 78, 80],
  [8, 17, 26, 35, 44, 53, 60, 61, 62, 69, 70, 71, 72, 73, 74, 75, 76, 77, 78, 79]]

/-- The MINILINE_NEIGHBORS table from positions.rs: for each of the 54 minilines, the pair of line neighbors followed by the pair of block neighbors. -/
def MINILINE_NEIGHBORS : List ((Nat × Nat) × (Nat × Nat)) := [
  ((1, 2), (3, 6)),
  ((2, 0), (4, 7)),
  ((0, 1), (5, 8)),
  ((4, 5), (6, 0)),
  ((5, 3), (7, 1)),
  ((3, 4), (8, 2)),
  ((7, 8), (0, 3)),
  ((8, 6), (1, 4)),
  ((6, 7), (2, 5)),
  ((10, 11), (12, 15)),
  ((11, 9), (13, 16)),
  ((9, 10), (14, 17)),
  ((13, 14), (15, 9)),
  ((14, 12), (16, 10)),
  ((12, 13), (17, 11)),
  ((16, 17), (9, 12)),
  ((17, 15), (10, 13)),
  ((15, 16), (11, 14)),
  ((19, 20), (21, 24)),
  ((20, 18), (22, 25)),
  ((18, 19), (23, 26)),
  ((22, 23), (24, 18)),
  ((23, 21), (25, 19)),
  ((21, 22), (26, 20)),
  ((25, 26), (18, 21)),
  ((26, 24), (19, 22)),
  ((24, 25), (20, 23)),
  ((28, 29), (30, 33)),
  ((29, 27), (31, 34)),
  ((27, 28), (32, 35)),
  ((31, 32), (33, 27)),
  ((32, 30), (34, 28)),
  ((30, 31), (35, 29)),
  ((34, 35), (27, 30)),
  ((35, 33), (28, 31)),
  ((33, 34), (29, 32)),
  ((37, 38), (39, 42)),
  ((38, 36), (40, 43)),
  ((36, 37), (41, 44)),
  ((40, 41), (42, 36)),
  ((41, 39), (43, 37)),
  ((39, 40), (44, 38)),
  ((43, 44), (36, 39)),
  ((44, 42), (37, 40)),
  ((42, 43), (38, 41)),
  ((46, 47), (48, 51)),
  ((47, 45), (49, 52)),
  ((45, 46), (50, 53)),
  ((49, 50), (51, 45)),
  ((50, 48), (52, 46)),
  ((48, 49), (53, 47)),
  ((52, 53), (45, 48)),
  ((53, 51), (46, 49)),
  ((51, 52), (47, 50))]

/-- The function `row` from positions.rs: `cell / 9`. -/
def row (c : Nat) : Nat := c / 9

/-- The function `col` from positions.rs: `cell % 9`. -/
def col (c : Nat) : Nat := c % 9

/-- The function `block` from positions.rs: lookup in the BLOCK table. -/
def block (c : Nat) : Nat := BLOCK.getD c 0

/-- The function `band` from positions.rs: `cell / 27`. -/
def band (c : Nat) : Nat := c / 27

/-- The function `stack` from positions.rs: `col(cell) / 3`. -/
def stack (c : Nat) : Nat := col c / 3

/-- The `From<Cell> for Block` conversion from positions.rs: `3 * band(c) + stack(c)`. -/
def blockOf (c : Nat) : Nat := 3 * band c + stack c

/-- `Cell::cells` from the `into_cells!` macro: the singleton bitmask `1 << cell`. -/
def cellMask (c : Nat) : Nat := 1 <<< c

/-- `Row::cells` from the `into_cells!` macro: `0o777 << (9 * row)`. -/
def rowCells (r : Nat) : Nat := 0o777 <<< (9 * r)

/-- `Col::cells` from the `into_cells!` macro: the 9-cell-spaced pattern shifted by the column index. -/
def colCells (c : Nat) : Nat := 0o001001001001001001001001001 <<< c

/-- `Block::cells` from the `into_cells!` macro: `0o007007007 << (band * 27 + stack * 3)`. -/
def blockCells (b : Nat) : Nat := 0o007007007 <<< ((b / 3) * 27 + (b % 3) * 3)

/-- `House::cells` from the `into_cells!` macro, after `House::categorize`
(rows are houses 0-8, columns 9-17, blocks 18-26; the offsets 9 and 18 are
`COL_OFFSET` and `BLOCK_OFFSET`, pinned by `House::categorize` and the
`ALL_ROWS`/`ALL_COLS`/`ALL_BLOCKS` constants in positions.rs). -/
def houseCells (h : Nat) : Nat :=
  if h < 9 then rowCells h else if h < 18 then colCells (h - 9) else blockCells (h - 18)

/-- `MiniRow::cells` from the `into_cells!` macro: `0o7 << 3 * mr`. -/
def miniRowCells (mr : Nat) : Nat := 0o7 <<< (3 * mr)

/-- `MiniCol::cells` from the `into_cells!` macro: `0o001001001 << ((mc % 3) * 27 + mc / 3)`. -/
def miniColCells (mc : Nat) : Nat := 0o001001001 <<< ((mc % 3) * 27 + mc / 3)

/-- `MiniLine::cells` from the `into_cells!` macro, after `MiniLine::categorize`
(minirows are minilines 0-26, minicols 27-53). -/
def miniLineCells (ml : Nat) : Nat :=
  if ml < 27 then miniRowCells ml else miniColCells (ml - 27)

/-- `Line::cells` from the `into_cells!` macro, after `Line::categorize`
(rows are lines 0-8, columns 9-17). -/
def lineCells (l : Nat) : Nat := if l < 9 then rowCells l else colCells (l - 9)

/-- `Cell::neighbors_set` from positions.rs:
`(row.cells() | col.cells() | block.cells()) ^ self`. -/
def neighborsSet (c : Nat) : Nat :=
  (rowCells (row c) ||| colCells (col c) ||| blockCells (blockOf c)) ^^^ cellMask c

/-- `Cell::neighbors` from positions.rs: row of the precomputed HOUSE_NEIGHBORS_OF_CELL table. -/
def neighborsList (c : Nat) : List Nat := HOUSE_NEIGHBORS_OF_CELL.getD c []

/-- `Cell::houses` from positions.rs: the row, column and block of the cell as
House indices, in that order. -/
def cellHouses (c : Nat) : List Nat := [row c, col c + 9, blockOf c + 18]

/-- The list of 9 cells a house owns, read from the CELLS_BY_HOUSE table. -/
def cellsByHouse (h : Nat) : List Nat := CELLS_BY_HOUSE.getD h []

/-- `Row::cell_at` from positions.rs: `row * 9 + pos`. -/
def cellAtRow (r pos : Nat) : Nat := r * 9 + pos

/-- `Col::cell_at` from positions.rs: `pos * 9 + col`. -/
def cellAtCol (c pos : Nat) : Nat := pos * 9 + c

/-- `Block::cell_at` from positions.rs. -/
def cellAtBlock (b pos : Nat) : Nat :=
  (b / 3 * 3 + pos / 3) * 9 + (b % 3 * 3 + pos % 3)

/-- The `From<Cell> for Position<Row>` conversion from positions.rs: `col(c)`. -/
def posInRow (c : Nat) : Nat := col c

/-- The `From<Cell> for Position<Col>` conversion from positions.rs: `row(c)`. -/
def posInCol (c : Nat) : Nat := row c

/-- The `From<Cell> for Position<Block>` conversion from positions.rs:
`row(c) % 3 * 3 + col(c) % 3`. -/
def posInBlock (c : Nat) : Nat := row c % 3 * 3 + col c % 3

/-- `MiniLine::neighbors` from positions.rs: lookup in MINILINE_NEIGHBORS,
line-neighbor pair first, block-neighbor pair second. -/
def miniLineNeighbors (ml : Nat) : (Nat × Nat) × (Nat × Nat) :=
  MINILINE_NEIGHBORS.getD ml ((0, 0), (0, 0))

/-- Number of cells in an 81-bit cell-set mask. -/
def setCard (mask : Nat) : Nat := ((List.range 81).filter (fun i => mask.testBit i)).length

/-- Bitmask built from a list of cell indices. -/
def maskOfList (l : List Nat) : Nat := l.foldr (fun i m => m ||| (1 <<< i)) 0

/-- Claim C3: for every cell c, the precomputed neighbor list has exactly 20
pairwise-distinct entries, does not contain c, agrees with the bit-arithmetic
`neighbors_set`, and both equal the union of the cells of c's row, column and
block with c removed. -/
theorem claim_c3_neighbors :
    ∀ c : Fin 81,
    (neighborsList c.val).length = 20 ∧
    (neighborsList c.val).Nodup ∧
    c.val ∉ neighborsList c.val ∧
    setCard (neighborsSet c.val) = 20 ∧
    (neighborsSet c.val).testBit c.val = false ∧
    maskOfList (neighborsList c.val) = neighborsSet c.val ∧
    (∀ x : Fin 81, x.val ∈ neighborsList c.val ↔
      (x ≠ c ∧ (row x.val = row c.val ∨ col x.val = col c.val ∨ blockOf x.val = blockOf c.val))) := by
  decide

/-- Claim C4: every house owns exactly 9 cells, every cell lies in exactly 3
of the 27 houses (the three returned by `Cell::houses`, which are pairwise
distinct). -/
theorem claim_c4_houses :
    (∀ h : Fin 27, setCard (houseCells h.val) = 9) ∧
    (∀ c : Fin 81,
      ((List.range 27).countP (fun h => (houseCells h).testBit c.val)) = 3 ∧
      (cellHouses c.val).Nodup ∧
      (cellHouses c.val).length = 3 ∧
      (∀ h : Fin 27, h.val ∈ cellHouses c.val ↔ (houseCells h.val).testBit c.val)) := by
  refine ⟨by decide, by decide⟩

/-- Claim C5: for every cell c, the row, column and block membership
conversions round-trip through `cell_at`. -/
theorem claim_c5_cell_at_roundtrip :
    ∀ c : Fin 81,
      cellAtRow (row c.val) (posInRow c.val) = c.val ∧
      cellAtCol (col c.val) (posInCol c.val) = c.val ∧
      cellAtBlock (blockOf c.val) (posInBlock c.val) = c.val := by
  decide

/-- Claim C6: for every house h, the closed-form bit-arithmetic cell set of
`cells()` contains exactly the 9 cell indices enumerated in CELLS_BY_HOUSE. -/
theorem claim_c6_cells_closed_form :
    ∀ h : Fin 27,
      maskOfList (cellsByHouse h.val) = houseCells h.val ∧
      (cellsByHouse h.val).length = 9 ∧
      (cellsByHouse h.val).Nodup ∧
      (∀ i : Fin 81, (houseCells h.val).testBit i.val ↔ i.val ∈ cellsByHouse h.val) := by
  decide

/-- Containment of one 81-bit cell set in another, as masks. -/
def maskSubset (a b : Nat) : Prop := a &&& b = a

instance (a b : Nat) : Decidable (maskSubset a b) :=
  inferInstanceAs (Decidable (_ = _))

/-- Minilines m and m' lie in one common line (row or column). -/
def inSameLine (m m' : Nat) : Prop :=
  ∃ l : Fin 18, maskSubset (miniLineCells m) (lineCells l.val) ∧
    maskSubset (miniLineCells m') (lineCells l.val)

/-- Minilines m and m' lie in one common block. -/
def inSameBlock (m m' : Nat) : Prop :=
  ∃ b : Fin 9, maskSubset (miniLineCells m) (blockCells b.val) ∧
    maskSubset (miniLineCells m') (blockCells b.val)

instance (m m' : Nat) : Decidable (inSameLine m m') := by
  unfold inSameLine; infer_instance

instance (m m' : Nat) : Decidable (inSameBlock m m') := by
  unfold inSameBlock; infer_instance

/-- Minilines m and m' have the same orientation: both minirows (indices
0-26) or both minicols (indices 27-53). -/
def sameOrientation (m m' : Nat) : Prop := (m < 27 ∧ m' < 27) ∨ (27 ≤ m ∧ 27 ≤ m')

instance (m m' : Nat) : Decidable (sameOrientation m m') := by
  unfold sameOrientation; infer_instance

/-- Claim C7 fails as stated: the block-neighbor pair of miniline 0 is (3, 6),
but miniline 27 (the first minicol) also lies in block 0, so the pair is not
the set of all other minilines lying in the same block. -/
theorem claim_c7_counterexample :
    ¬ (∀ m' : Fin 54,
        (m'.val = (miniLineNeighbors 0).2.1 ∨ m'.val = (miniLineNeighbors 0).2.2) ↔
        (m'.val ≠ 0 ∧ inSameBlock 0 m'.val)) := by
  decide

/-- Claim C7, amended: for every miniline m, MINILINE_NEIGHBORS gives two
distinct line neighbors that are precisely the other minilines lying in m's
line, and two distinct block neighbors that are precisely the other minilines
of m's own orientation lying in m's block. -/
theorem claim_c7_miniline_neighbors :
    ∀ m : Fin 54,
      (miniLineNeighbors m.val).1.1 ≠ (miniLineNeighbors m.val).1.2 ∧
      (miniLineNeighbors m.val).2.1 ≠ (miniLineNeighbors m.val).2.2 ∧
      (∀ m' : Fin 54,
        (m'.val = (miniLineNeighbors m.val).1.1 ∨ m'.val = (miniLineNeighbors m.val).1.2) ↔
        (m'.val ≠ m.val ∧ inSameLine m.val m'.val)) ∧
      (∀ m' : Fin 54,
        (m'.val = (miniLineNeighbors m.val).2.1 ∨ m'.val = (miniLineNeighbors m.val).2.2) ↔
        (m'.val ≠ m.val ∧ sameOrientation m.val m'.val ∧ inSameBlock m.val m'.val)) := by
  decide

end SudokuGeom

namespace SudokuWrapper

/-- A 9x9 grid of digits, the `SudokuTwoDimensionalArray` of src/src/lib.rs
(entries are u8 digits, embedded as naturals; index pair is row, column). -/
abbrev Grid := Nat → Nat → Nat

/-- The `Player` record from src/src/lib.rs.  A stored `Sudoku` is opaque to
the wrapper and only ever read back through `to_two_dimensional_array`, so it
is embedded by that 9x9 array; timestamps (u64 milliseconds) and the u128
counters are embedded as naturals. -/
structure Player where
  sudoku : Option Grid
  start_time : Nat
  generated_sudoku_count : Nat
  sloved_sudoku_count : Nat
  last_sloved_game : Option (Grid × Nat × Nat)
  best_time : Option Nat

/-- `u64::MAX`, the default used by `Player::finish_game`. -/
def U64MAX : Nat := 2 ^ 64 - 1

/-- `Player::sudoku_eq` from src/src/lib.rs, embedded statement by statement,
including the comparison `array[x][y] != array[x][y]` of line 194 exactly as
written in the source.  `none` models the panic of `self.sudoku.unwrap()`
when no puzzle is stored. -/
def sudokuEq (p : Player) (array : Grid) : Option Bool :=
  match p.sudoku with
  | none => none
  | some internal =>
    some ((List.range 9).all fun x => (List.range 9).all fun y =>
      !(decide (array x y < 1) || decide (9 < array x y)) &&
      !(decide (internal x y ≠ 0) && decide (array x y ≠ array x y)))

/-- A stored puzzle holding the clue digit 5 at cell (0,0) and blanks elsewhere. -/
def c1Stored : Grid := fun x y => if x = 0 ∧ y = 0 then 5 else 0

/-- A submitted grid of all 1s: every entry is in 1-9 and the entry at (0,0)
differs from the stored clue. -/
def c1Submitted : Grid := fun _ _ => 1

/-- A player storing `c1Stored`. -/
def c1Player : Player := ⟨some c1Stored, 0, 1, 0, none, none⟩

/-- Claim C1 is violated by the code: the stored puzzle has the nonzero clue
5 at (0,0), the submitted all-1s grid has every entry in 1-9 and differs from
the stored grid at (0,0), yet `sudoku_eq` returns true, because line 194 of
src/src/lib.rs compares `array[x][y]` with itself instead of with
`internal_sudoku[x][y]` (which is computed on line 186 but never read). -/
theorem claim_c1_code_bug :
    c1Stored 0 0 = 5 ∧ c1Submitted 0 0 = 1 ∧ c1Submitted 0 0 ≠ c1Stored 0 0 ∧
    (∀ x : Fin 9, ∀ y : Fin 9, 1 ≤ c1Submitted x.val y.val ∧ c1Submitted x.val y.val ≤ 9) ∧
    sudokuEq c1Player c1Submitted = some true := by
  refine ⟨rfl, rfl, by decide, by decide, by decide⟩

/-- `Position::new` from positions.rs: it stores the argument with no range
check at all (the source carries the comment
`TODO: make panic on invalid positions`).  Fallible construction is embedded
as an `Option`; this function never returns `none`. -/
def positionNew (pos : Nat) : Option Nat := some pos

/-- The `new` constructor generated by the `define_types!` macro in
positions.rs: its only guard is `debug_assert!(num < limit)`, which is
compiled out of release builds, so in release it stores the argument
unconditionally. -/
def defineTypesNewRelease (_limit num : Nat) : Option Nat :=
  some num

/-- The `new_checked` constructor generated by `define_types!`: returns
`none` when the argument is outside `0..limit`. -/
def newChecked (limit num : Nat) : Option Nat :=
  if num < limit then some num else none

/-- Claim C8 is violated by the code: `Position::<Row>::new(9)` (and any
other out-of-range position) returns a value instead of panicking, since
`Position::new` validates nothing, and the `define_types!` `new` only has a
`debug_assert!`, absent from release builds, so `Cell::new(255)` also returns
a value there; only `new_checked` actually rejects the argument. -/
theorem claim_c8_new_returns_out_of_range :
    positionNew 9 = some 9 ∧
    defineTypesNewRelease 81 255 = some 255 ∧
    newChecked 81 255 = none := by
  refine ⟨rfl, rfl, by decide⟩

/-- `Player::finish_game` from src/src/lib.rs.  `now` is the value of
`env::block_timestamp_ms()` during the call (read three times in the source,
always inside one block, hence one value).  The u64 subtraction
`now - start_time` is embedded as truncated natural subtraction, which agrees
with the source for the monotonic timestamps `start_time <= now`.  `none`
models the panic of `self.sudoku.unwrap()`. -/
def finishGame (p : Player) (now : Nat) : Option Player :=
  match p.sudoku with
  | none => none
  | some s =>
    some ⟨none, now, p.generated_sudoku_count, p.sloved_sudoku_count + 1,
          some (s, p.start_time, now),
          if now - p.start_time < p.best_time.getD U64MAX then some (now - p.start_time)
          else p.best_time⟩

/-- The `Leaderboard` struct from src/src/lib.rs.  A `HashMap<AccountId, _>`
is embedded as an association list with account ids as naturals; the list
order stands for the map's (unspecified) iteration order. -/
structure Leaderboard where
  top_by_count : List (Nat × Nat)
  top_by_time : List (Nat × Nat)

/-- The `LEADERBOARD_SIZE` constant from src/src/lib.rs. -/
def LEADERBOARD_SIZE : Nat := 10

/-- `HashMap::insert`: replaces the value when the key is present, otherwise
adds the entry. -/
def hmInsert (m : List (Nat × Nat)) (k v : Nat) : List (Nat × Nat) :=
  if m.any (fun kv => kv.1 == k) then m.map (fun kv => if kv.1 == k then (k, v) else kv)
  else (k, v) :: m

/-- `HashMap::remove`: drops the entry with the given key. -/
def hmRemove (m : List (Nat × Nat)) (k : Nat) : List (Nat × Nat) :=
  m.filter (fun kv => !(kv.1 == k))

/-- One step of `Iterator::min_by_key`/`max_by_key` as used in
`Leaderboard::work_player`: keep the better entry, preferring the later one
on ties (as the Rust iterator adaptors do). -/
def pickStep (better : Nat → Nat → Bool) (acc : Option (Nat × Nat)) (kv : Nat × Nat) :
    Option (Nat × Nat) :=
  match acc with
  | none => some kv
  | some best => if better kv.2 best.2 then some kv else some best

/-- Fold of `pickStep` over the map entries. -/
def pickBy (better : Nat → Nat → Bool) (m : List (Nat × Nat)) : Option (Nat × Nat) :=
  m.foldl (pickStep better) none

/-- `.iter().min_by_key(|(_, value)| *value)` from `work_player`. -/
def minByVal (m : List (Nat × Nat)) : Option (Nat × Nat) := pickBy (fun a b => a ≤ b) m

/-- `.iter().max_by_key(|(_, value)| *value)` from `work_player`. -/
def maxByVal (m : List (Nat × Nat)) : Option (Nat × Nat) := pickBy (fun a b => b ≤ a) m

/-- The `top_by_count` half of `Leaderboard::work_player` from src/src/lib.rs.
`caller` is `env::predecessor_account_id()`.  `none` models a panic of the
`unwrap` on `min_by_key` (only reachable on an empty map). -/
def workCount (caller cnt : Nat) (tc : List (Nat × Nat)) : Option (List (Nat × Nat)) :=
  if tc.length < LEADERBOARD_SIZE then some (hmInsert tc caller cnt)
  else
    match minByVal tc with
    | none => none
    | some kv =>
      if kv.2 ≤ cnt then
        if kv.1 == caller then some (hmInsert tc caller cnt)
        else some (hmInsert (hmRemove tc kv.1) caller cnt)
      else some tc

/-- The `top_by_time` half of `Leaderboard::work_player` from src/src/lib.rs.
`none` models the panic of `player.best_time.unwrap()` (and of the `unwrap`
on `max_by_key`). -/
def workTime (caller : Nat) (bt : Option Nat) (tt : List (Nat × Nat)) :
    Option (List (Nat × Nat)) :=
  match bt with
  | none => none
  | some b =>
    if tt.length < LEADERBOARD_SIZE then some (hmInsert tt caller b)
    else
      match maxByVal tt with
      | none => none
      | some kv =>
        if b ≤ kv.2 then
          if kv.1 == caller then some (hmInsert tt caller b)
          else some (hmInsert (hmRemove tt kv.1) caller b)
        else some tt

/-- `Leaderboard::work_player` from src/src/lib.rs: the count half followed
by the time half. -/
def workPlayer (caller : Nat) (p : Player) (lb : Leaderboard) : Option Leaderboard :=
  match workCount caller p.sloved_sudoku_count lb.top_by_count with
  | none => none
  | some tc =>
    match workTime caller p.best_time lb.top_by_time with
    | none => none
    | some tt => some ⟨tc, tt⟩

/-- A sequence of `work_player` calls starting from the empty leaderboard
that `Contract::new` creates. -/
def runCalls (calls : List (Nat × Player)) : Option Leaderboard :=
  calls.foldlM (fun lb c => workPlayer c.1 c.2 lb) ⟨[], []⟩

theorem pickStep_some (better : Nat → Nat → Bool) (acc : Option (Nat × Nat))
    (kv : Nat × Nat) : ∃ r, pickStep better acc kv = some r ∧ (r = kv ∨ acc = some r) := by
  rcases acc with _ | best
  · exact ⟨kv, rfl, Or.inl rfl⟩
  · unfold pickStep
    by_cases h : better kv.2 best.2 = true
    · refine ⟨kv, ?_, Or.inl rfl⟩
      simp only [h, if_true]
    · refine ⟨best, ?_, Or.inr rfl⟩
      simp only [h]
      rfl

theorem pickBy_foldl_mem (better : Nat → Nat → Bool) :
    ∀ (m : List (Nat × Nat)) (acc : Option (Nat × Nat)) (r : Nat × Nat),
      m.foldl (pickStep better) acc = some r → r ∈ m ∨ acc = some r := by
  intro m
  induction m with
  | nil => intro acc r h; exact Or.inr h
  | cons a t ih =>
    intro acc r h
    rw [List.foldl_cons] at h
    rcases ih _ _ h with h1 | h1
    · exact Or.inl (List.mem_cons_of_mem _ h1)
    · obtain ⟨r', hr', hcase⟩ := pickStep_some better acc a
      rw [hr'] at h1
      obtain rfl : r' = r := Option.some.inj h1
      rcases hcase with rfl | hacc
      · exact Or.inl (List.mem_cons_self _ _)
      · exact Or.inr hacc

theorem pickBy_foldl_isSome (better : Nat → Nat → Bool) :
    ∀ (m : List (Nat × Nat)) (acc : Option (Nat × Nat)), m ≠ [] ∨ acc.isSome = true →
      (m.foldl (pickStep better) acc).isSome = true := by
  intro m
  induction m with
  | nil =>
    intro acc h
    rcases h with h | h
    · exact absurd rfl h
    · exact h
  | cons a t ih =>
    intro acc _
    rw [List.foldl_cons]
    refine ih _ (Or.inr ?_)
    obtain ⟨r', hr', _⟩ := pickStep_some better acc a
    rw [hr']; rfl

theorem pickBy_mem (better : Nat → Nat → Bool) (m : List (Nat × Nat))
    (hm : m ≠ []) : ∃ kv, pickBy better m = some kv ∧ kv ∈ m := by
  have hs := pickBy_foldl_isSome better m none (Or.inl hm)
  unfold pickBy
  obtain ⟨kv, hkv⟩ := Option.isSome_iff_exists.mp hs
  refine ⟨kv, hkv, ?_⟩
  rcases pickBy_foldl_mem better m none kv hkv with h | h
  · exact h
  · cases h

theorem hmInsert_length_le (m : List (Nat × Nat)) (k v : Nat) :
    (hmInsert m k v).length ≤ m.length + 1 := by
  unfold hmInsert
  split
  · rw [List.length_map]; omega
  · simp

theorem hmInsert_length_of_mem (m : List (Nat × Nat)) (k v : Nat)
    (h : m.any (fun kv => kv.1 == k) = true) : (hmInsert m k v).length = m.length := by
  unfold hmInsert
  rw [if_pos h, List.length_map]

theorem hmRemove_length_lt (m : List (Nat × Nat)) (kv : Nat × Nat) (h : kv ∈ m) :
    (hmRemove m kv.1).length < m.length := by
  unfold hmRemove
  induction m with
  | nil => cases h
  | cons a t ih =>
    rcases List.mem_cons.mp h with rfl | hmem
    · have hbeq : (kv.1 == kv.1) = true := beq_self_eq_true _
      have hle := List.length_filter_le (fun x : Nat × Nat => !(x.1 == kv.1)) t
      rw [List.filter_cons]
      simp only [hbeq, Bool.not_true, List.length_cons, Bool.false_eq_true, if_false]
      omega
    · rw [List.filter_cons]
      split
      · simpa [Nat.succ_lt_succ_iff] using ih hmem
      · have := List.length_filter_le (fun x : Nat × Nat => !(x.1 == kv.1)) t
        simp only [List.length_cons]
        omega

theorem workCount_bounded (caller cnt : Nat) (tc : List (Nat × Nat))
    (h : tc.length ≤ LEADERBOARD_SIZE) :
    ∃ tc', workCount caller cnt tc = some tc' ∧ tc'.length ≤ LEADERBOARD_SIZE := by
  unfold workCount
  by_cases hlt : tc.length < LEADERBOARD_SIZE
  · rw [if_pos hlt]
    exact ⟨_, rfl, le_trans (hmInsert_length_le tc caller cnt) hlt⟩
  · rw [if_neg hlt]
    have hne : tc ≠ [] := by
      intro hnil
      rw [hnil] at hlt
      exact hlt (by simp [LEADERBOARD_SIZE])
    obtain ⟨kv, hkv, hmem⟩ := pickBy_mem (fun a b => a ≤ b) tc hne
    unfold minByVal
    rw [hkv]
    dsimp only
    by_cases hcond : kv.2 ≤ cnt
    · rw [if_pos hcond]
      by_cases hkey : (kv.1 == caller) = true
      · rw [if_pos hkey]
        have hany : tc.any (fun x => x.1 == caller) = true :=
          List.any_eq_true.mpr ⟨kv, hmem, hkey⟩
        exact ⟨_, rfl, by rw [hmInsert_length_of_mem tc caller cnt hany]; exact h⟩
      · rw [if_neg hkey]
        have hrem := hmRemove_length_lt tc kv hmem
        have := hmInsert_length_le (hmRemove tc kv.1) caller cnt
        exact ⟨_, rfl, by omega⟩
    · rw [if_neg hcond]
      exact ⟨tc, rfl, h⟩

theorem workTime_bounded (caller : Nat) (b : Nat) (tt : List (Nat × Nat))
    (h : tt.length ≤ LEADERBOARD_SIZE) :
    ∃ tt', workTime caller (some b) tt = some tt' ∧ tt'.length ≤ LEADERBOARD_SIZE := by
  unfold workTime
  dsimp only
  by_cases hlt : tt.length < LEADERBOARD_SIZE
  · rw [if_pos hlt]
    exact ⟨_, rfl, le_trans (hmInsert_length_le tt caller b) hlt⟩
  · rw [if_neg hlt]
    have hne : tt ≠ [] := by
      intro hnil
      rw [hnil] at hlt
      exact hlt (by simp [LEADERBOARD_SIZE])
    obtain ⟨kv, hkv, hmem⟩ := pickBy_mem (fun a b => b ≤ a) tt hne
    unfold maxByVal
    rw [hkv]
    dsimp only
    by_cases hcond : b ≤ kv.2
    · rw [if_pos hcond]
      by_cases hkey : (kv.1 == caller) = true
      · rw [if_pos hkey]
        have hany : tt.any (fun x => x.1 == caller) = true :=
          List.any_eq_true.mpr ⟨kv, hmem, hkey⟩
        exact ⟨_, rfl, by rw [hmInsert_length_of_mem tt caller b hany]; exact h⟩
      · rw [if_neg hkey]
        have hrem := hmRemove_length_lt tt kv hmem
        have := hmInsert_length_le (hmRemove tt kv.1) caller b
        exact ⟨_, rfl, by omega⟩
    · rw [if_neg hcond]
      exact ⟨tt, rfl, h⟩

theorem workPlayer_bounded (caller : Nat) (p : Player) (lb : Leaderboard)
    (hbt : p.best_time.isSome = true)
    (hc : lb.top_by_count.length ≤ LEADERBOARD_SIZE)
    (ht : lb.top_by_time.length ≤ LEADERBOARD_SIZE) :
    ∃ lb', workPlayer caller p lb = some lb' ∧
      lb'.top_by_count.length ≤ LEADERBOARD_SIZE ∧
      lb'.top_by_time.length ≤ LEADERBOARD_SIZE := by
  obtain ⟨b, hb⟩ := Option.isSome_iff_exists.mp hbt
  obtain ⟨tc', htc, hlc⟩ := workCount_bounded caller p.sloved_sudoku_count lb.top_by_count hc
  obtain ⟨tt', htt, hlt⟩ := workTime_bounded caller b lb.top_by_time ht
  refine ⟨⟨tc', tt'⟩, ?_, hlc, hlt⟩
  unfold workPlayer
  rw [htc, hb, htt]

/-- Claim C9: starting from the empty leaderboard, any sequence of
`work_player` calls on players whose `best_time` is set succeeds and leaves
at most `LEADERBOARD_SIZE` (10) entries in each of `top_by_count` and
`top_by_time`. -/
theorem claim_c9_leaderboard_size (calls : List (Nat × Player))
    (h : ∀ c ∈ calls, c.2.best_time.isSome = true) :
    ∃ lb, runCalls calls = some lb ∧
      lb.top_by_count.length ≤ LEADERBOARD_SIZE ∧
      lb.top_by_time.length ≤ LEADERBOARD_SIZE := by
  suffices haux : ∀ (cs : List (Nat × Player)) (lb : Leaderboard),
      (∀ c ∈ cs, c.2.best_time.isSome = true) →
      lb.top_by_count.length ≤ LEADERBOARD_SIZE →
      lb.top_by_time.length ≤ LEADERBOARD_SIZE →
      ∃ lb', cs.foldlM (fun l c => workPlayer c.1 c.2 l) lb = some lb' ∧
        lb'.top_by_count.length ≤ LEADERBOARD_SIZE ∧
        lb'.top_by_time.length ≤ LEADERBOARD_SIZE by
    exact haux calls ⟨[], []⟩ h (by simp [LEADERBOARD_SIZE]) (by simp [LEADERBOARD_SIZE])
  intro cs
  induction cs with
  | nil => exact fun lb _ hc ht => ⟨lb, rfl, hc, ht⟩
  | cons c cs ih =>
    intro lb hall hc ht
    obtain ⟨lb1, h1, hc1, ht1⟩ :=
      workPlayer_bounded c.1 c.2 lb (hall c (List.mem_cons_self _ _)) hc ht
    obtain ⟨lb', h2, hc2, ht2⟩ :=
      ih lb1 (fun d hd => hall d (List.mem_cons_of_mem _ hd)) hc1 ht1
    refine ⟨lb', ?_, hc2, ht2⟩
    rw [List.foldlM_cons, h1]
    exact h2

/-- A player whose `best_time` is set, used to instantiate claim C9. -/
def c9Player : Player := ⟨none, 0, 0, 5, none, some 100⟩

/-- Witness for claim C9 at the one-call sequence `[(1, c9Player)]`. -/
theorem claim_c9_leaderboard_size_witness :
    (∀ c ∈ [(1, c9Player)], (Prod.snd c).best_time.isSome = true) ∧
    (∃ lb, runCalls [(1, c9Player)] = some lb ∧
      lb.top_by_count.length ≤ LEADERBOARD_SIZE ∧
      lb.top_by_time.length ≤ LEADERBOARD_SIZE) := by
  refine ⟨?_, claim_c9_leaderboard_size [(1, c9Player)] ?_⟩ <;>
    · intro c hc
      rcases List.mem_singleton.mp hc with rfl
      rfl

theorem workCount_isSome (caller cnt : Nat) (tc : List (Nat × Nat)) :
    (workCount caller cnt tc).isSome = true := by
  unfold workCount
  by_cases hlt : tc.length < LEADERBOARD_SIZE
  · rw [if_pos hlt]; rfl
  · rw [if_neg hlt]
    have hne : tc ≠ [] := by
      intro hnil
      rw [hnil] at hlt
      exact hlt (by simp [LEADERBOARD_SIZE])
    obtain ⟨kv, hkv, _⟩ := pickBy_mem (fun a b => a ≤ b) tc hne
    unfold minByVal
    rw [hkv]
    dsimp only
    by_cases hcond : kv.2 ≤ cnt
    · rw [if_pos hcond]
      by_cases hkey : (kv.1 == caller) = true
      · rw [if_pos hkey]; rfl
      · rw [if_neg hkey]; rfl
    · rw [if_neg hcond]; rfl

theorem workTime_isSome (caller b : Nat) (tt : List (Nat × Nat)) :
    (workTime caller (some b) tt).isSome = true := by
  unfold workTime
  dsimp only
  by_cases hlt : tt.length < LEADERBOARD_SIZE
  · rw [if_pos hlt]; rfl
  · rw [if_neg hlt]
    have hne : tt ≠ [] := by
      intro hnil
      rw [hnil] at hlt
      exact hlt (by simp [LEADERBOARD_SIZE])
    obtain ⟨kv, hkv, _⟩ := pickBy_mem (fun a b => b ≤ a) tt hne
    unfold maxByVal
    rw [hkv]
    dsimp only
    by_cases hcond : b ≤ kv.2
    · rw [if_pos hcond]
      by_cases hkey : (kv.1 == caller) = true
      · rw [if_pos hkey]; rfl
      · rw [if_neg hkey]; rfl
    · rw [if_neg hcond]; rfl

theorem workPlayer_isSome (caller : Nat) (p : Player) (lb : Leaderboard)
    (hbt : p.best_time.isSome = true) : (workPlayer caller p lb).isSome = true := by
  obtain ⟨b, hb⟩ := Option.isSome_iff_exists.mp hbt
  obtain ⟨tc, htc⟩ :=
    Option.isSome_iff_exists.mp (workCount_isSome caller p.sloved_sudoku_count lb.top_by_count)
  obtain ⟨tt, htt⟩ :=
    Option.isSome_iff_exists.mp (workTime_isSome caller b lb.top_by_time)
  unfold workPlayer
  rw [htc, hb, htt]
  rfl

/-- A player with a stored puzzle, no previous best time, and `start_time`
0, fed to `finish_game` at block time `u64::MAX` milliseconds. -/
def c10Edge : Player := ⟨some (fun _ _ => 0), 0, 1, 0, none, none⟩

/-- Claim C10 fails as stated: when no previous `best_time` exists and the
elapsed time is exactly `u64::MAX`, the comparison
`time < self.best_time.unwrap_or(u64::MAX)` is false and `finish_game`
leaves `best_time` as `None`; `work_player` then panics on
`best_time.unwrap()` for that player. -/
theorem claim_c10_counterexample :
    (finishGame c10Edge (2 ^ 64 - 1)).map Player.best_time = some none ∧
    ((finishGame c10Edge (2 ^ 64 - 1)).bind fun q => workPlayer 0 q ⟨[], []⟩).isNone = true := by
  exact ⟨rfl, rfl⟩

/-- Claim C10, amended: after `finish_game` at block time `now` (monotonic,
so `start_time <= now`), provided a previous best exists or the elapsed time
is below `u64::MAX`, the new `best_time` is `Some` of the minimum of the
previous best (`u64::MAX` when absent) and the elapsed time; it never
exceeds a previous best, and `work_player` on the resulting player cannot
panic.  In the remaining degenerate case (no previous best and elapsed time
exactly `u64::MAX`) `best_time` stays `None`, as claim_c10_counterexample
shows. -/
theorem claim_c10_finish_game (p : Player) (now : Nat)
    (hsud : p.sudoku.isSome = true)
    (_hmono : p.start_time ≤ now)
    (hedge : p.best_time.isSome = true ∨ now - p.start_time < U64MAX) :
    ∃ q, finishGame p now = some q ∧
      q.best_time = some (min (p.best_time.getD U64MAX) (now - p.start_time)) ∧
      (∀ b, p.best_time = some b → min (p.best_time.getD U64MAX) (now - p.start_time) ≤ b) ∧
      (∀ caller lb, (workPlayer caller q lb).isSome = true) := by
  obtain ⟨s, hs⟩ := Option.isSome_iff_exists.mp hsud
  have hq : finishGame p now =
      some ⟨none, now, p.generated_sudoku_count, p.sloved_sudoku_count + 1,
        some (s, p.start_time, now),
        if now - p.start_time < p.best_time.getD U64MAX then some (now - p.start_time)
        else p.best_time⟩ := by
    unfold finishGame
    rw [hs]
  have hbest :
      (if now - p.start_time < p.best_time.getD U64MAX then some (now - p.start_time)
        else p.best_time) = some (min (p.best_time.getD U64MAX) (now - p.start_time)) := by
    rcases hbt : p.best_time with _ | b
    · have htime : now - p.start_time < U64MAX := by
        rcases hedge with hedge | hedge
        · rw [hbt] at hedge; cases hedge
        · exact hedge
      simp only [Option.getD_none]
      rw [if_pos htime, Nat.min_eq_right (Nat.le_of_lt htime)]
    · simp only [Option.getD_some]
      by_cases hlt : now - p.start_time < b
      · rw [if_pos hlt, Nat.min_eq_right (Nat.le_of_lt hlt)]
      · rw [if_neg hlt, Nat.min_eq_left (Nat.le_of_not_lt hlt)]
  refine ⟨_, hq, hbest, ?_, ?_⟩
  · intro b hb
    rw [hb, Option.getD_some]
    exact Nat.min_le_left _ _
  · intro caller lb
    refine workPlayer_isSome caller _ lb ?_
    show (if now - p.start_time < p.best_time.getD U64MAX then some (now - p.start_time)
      else p.best_time).isSome = true
    rw [hbest]
    rfl

/-- A player with a stored puzzle and `start_time` 10, used to instantiate
the amended claim C10 at block time 25. -/
def c10Player : Player := ⟨some (fun _ _ => 0), 10, 1, 0, none, none⟩

/-- Witness for the amended claim C10 at `c10Player` and block time 25. -/
theorem claim_c10_finish_game_witness :
    (c10Player.sudoku.isSome = true ∧ c10Player.start_time ≤ 25 ∧
      (c10Player.best_time.isSome = true ∨ 25 - c10Player.start_time < U64MAX)) ∧
    (∃ q, finishGame c10Player 25 = some q ∧
      q.best_time = some (min (c10Player.best_time.getD U64MAX) (25 - c10Player.start_time)) ∧
      (∀ b, c10Player.best_time = some b →
        min (c10Player.best_time.getD U64MAX) (25 - c10Player.start_time) ≤ b) ∧
      (∀ caller lb, (workPlayer caller q lb).isSome = true)) := by
  refine ⟨⟨rfl, by decide, Or.inr (by decide)⟩,
    claim_c10_finish_game c10Player 25 rfl (by decide) (Or.inr (by decide))⟩

/-- The list [1, ..., 9] of sudoku digits. -/
def digits : List Nat := [1, 2, 3, 4, 5, 6, 7, 8, 9]

/-- Modelled from the spec: `Sudoku::from_two_dimensional_array` is not under
src/.  Per spec section 6 the interchange array is row-major with 0 meaning
blank, so board cell i holds entry (i / 9, i % 9) of the array. -/
def fromTwoDimensionalArray (a : Grid) : Nat → Nat := fun i => a (i / 9) (i % 9)

/-- Modelled from the spec: `Sudoku::is_solved` is not under src/.  Per spec
section 4.3 it is true iff all 81 cells are placed and every house's placed
digits form exactly the full digit set (no duplicates, no gaps); the houses
are the 27 cell groups of the in-src CELLS_BY_HOUSE table, each of 9 cells,
so forming the full set is holding every one of the 9 digits. -/
def isSolved (g : Nat → Nat) : Bool :=
  ((List.range 81).all fun i => decide (1 ≤ g i) && decide (g i ≤ 9)) &&
  ((List.range 27).all fun h =>
    digits.all fun d => (SudokuGeom.cellsByHouse h).any fun c => g c == d)

/-- `Contract::check_sloved` from src/src/lib.rs:
`Sudoku::from_two_dimensional_array(array).is_solved()`. -/
def checkSloved (a : Grid) : Bool := isSolved (fromTwoDimensionalArray a)

/-- The 9 entries of row r of the array. -/
def rowEntries (a : Grid) (r : Nat) : List Nat := (List.range 9).map fun y => a r y

/-- The 9 entries of column c of the array. -/
def colEntries (a : Grid) (c : Nat) : List Nat := (List.range 9).map fun x => a x c

/-- The 9 entries of block b of the array (3x3 boxes, row-major). -/
def blockEntries (a : Grid) (b : Nat) : List Nat :=
  (List.range 9).map fun p => a (b / 3 * 3 + p / 3) (b % 3 * 3 + p % 3)

theorem cellsByHouse_length : ∀ h < 27, (SudokuGeom.cellsByHouse h).length = 9 := by
  decide

/-- A 9-element list holds every digit iff it is a permutation of 1-9. -/
theorem perm_digits_iff (l : List Nat) (hl : l.length = 9) :
    l.Perm digits ↔ ∀ d ∈ digits, d ∈ l := by
  constructor
  · intro hp d hd
    exact hp.symm.mem_iff.mp hd
  · intro hsub
    have hnd : digits.Nodup := by decide
    have hsp : digits.Subperm l := hnd.subperm fun d hd => hsub d hd
    exact (hsp.perm_of_length_le (by rw [hl]; rfl)).symm

/-- Mapping the board read-back over a house's cell list gives exactly the
row, column or block entries of the array, per the house numbering. -/
theorem houseList_eq (a : Grid) : ∀ h < 27,
    (SudokuGeom.cellsByHouse h).map (fromTwoDimensionalArray a) =
      (if h < 9 then rowEntries a h
        else if h < 18 then colEntries a (h - 9) else blockEntries a (h - 18)) := by
  intro h hh
  interval_cases h <;> rfl

/-- Claim C2: `check_sloved` (is_solved after from_two_dimensional_array)
holds iff every entry of the array is in 1-9 and every row, column and block
is a permutation of the digits 1-9. -/
theorem claim_c2_check_sloved (a : Grid) :
    checkSloved a = true ↔
      ((∀ x < 9, ∀ y < 9, 1 ≤ a x y ∧ a x y ≤ 9) ∧
       (∀ r < 9, (rowEntries a r).Perm digits) ∧
       (∀ c < 9, (colEntries a c).Perm digits) ∧
       (∀ b < 9, (blockEntries a b).Perm digits)) := by
  unfold checkSloved isSolved
  rw [Bool.and_eq_true]
  simp only [List.all_eq_true, List.any_eq_true, List.mem_range, Bool.and_eq_true,
    decide_eq_true_eq, beq_iff_eq]
  have hmap : ∀ h < 27, ∀ d : Nat,
      (∃ c ∈ SudokuGeom.cellsByHouse h, fromTwoDimensionalArray a c = d) ↔
        d ∈ (SudokuGeom.cellsByHouse h).map (fromTwoDimensionalArray a) := by
    intro h _ d
    rw [List.mem_map]
  have hlen : ∀ h < 27, ((SudokuGeom.cellsByHouse h).map (fromTwoDimensionalArray a)).length = 9 := by
    intro h hh
    rw [List.length_map]
    exact cellsByHouse_length h hh
  constructor
  · rintro ⟨hcells, hhouses⟩
    have hperm : ∀ h < 27, ((SudokuGeom.cellsByHouse h).map (fromTwoDimensionalArray a)).Perm digits := by
      intro h hh
      refine (perm_digits_iff _ (hlen h hh)).mpr ?_
      intro d hd
      exact (hmap h hh d).mp (hhouses h hh d hd)
    refine ⟨?_, ?_, ?_, ?_⟩
    · intro x hx y hy
      have hxy : 9 * x + y < 81 := by omega
      have h1 := hcells (9 * x + y) hxy
      have hdiv : (9 * x + y) / 9 = x := by omega
      have hmod : (9 * x + y) % 9 = y := by omega
      simpa only [fromTwoDimensionalArray, hdiv, hmod] using h1
    · intro r hr
      have := hperm r (by omega)
      rwa [houseList_eq a r (by omega), if_pos hr] at this
    · intro c hc
      have := hperm (c + 9) (by omega)
      rw [houseList_eq a (c + 9) (by omega), if_neg (by omega), if_pos (by omega)] at this
      simpa using this
    · intro b hb
      have := hperm (b + 18) (by omega)
      rw [houseList_eq a (b + 18) (by omega), if_neg (by omega), if_neg (by omega)] at this
      simpa using this
  · rintro ⟨hcells, hrows, hcols, hblocks⟩
    have hperm : ∀ h < 27, ((SudokuGeom.cellsByHouse h).map (fromTwoDimensionalArray a)).Perm digits := by
      intro h hh
      rw [houseList_eq a h hh]
      by_cases h9 : h < 9
      · rw [if_pos h9]; exact hrows h h9
      · rw [if_neg h9]
        by_cases h18 : h < 18
        · rw [if_pos h18]; exact hcols (h - 9) (by omega)
        · rw [if_neg h18]; exact hblocks (h - 18) (by omega)
    constructor
    · intro i hi
      have hx : i / 9 < 9 := by omega
      have hy : i % 9 < 9 := by omega
      exact hcells (i / 9) hx (i % 9) hy
    · intro h hh d hd
      refine (hmap h hh d).mpr ?_
      exact ((perm_digits_iff _ (hlen h hh)).mp (hperm h hh)) d hd

end SudokuWrapper
